import Mathlib

/-!
Verification of the mrms-radar refresh pipeline (backend/app/main.py)
against its natural-language specification.

The Python source is shallowly embedded below.  Machine floats appearing in
the colorizer are modelled as exact rationals (`ℚ`); every input used in a
counterexample is chosen so that the float32 computation in the source and
the rational computation here agree (the values involved are either exactly
representable or sit far from the relevant decision boundaries).  The numpy
`astype("uint8")` cast is a C cast: truncation toward zero followed by
reduction mod 256, embedded as such.  Filesystem and network effects are
embedded as explicit state passed through the functions that the source
performs them in.
-/

namespace MrmsRadar

/-! ## Configuration constants (main.py lines 13-33) -/

/-- Primary HTML directory listing URL (main.py line 14). -/
def MRMS_HTTP : String := "https://mrms.ncep.noaa.gov/2D/ReflectivityAtLowestAltitude/"

/-- S3 bucket base URL (main.py line 15). -/
def MRMS_S3 : String := "https://noaa-mrms-pds.s3.amazonaws.com"

/-- The ordered fallback S3 listing sources (main.py lines 18-21). -/
def s3Sources : List String :=
  ["CONUS/ReflectivityAtLowestAltitude_00.50/",
   "CONUS/ReflectivityAtLowestAltitude_01.00/"]

/-- Fixed geographic bounds constant CONUS_BOUNDS (main.py line 33). -/
def CONUS_BOUNDS : List (List ℚ) := [[24.5, -125.0], [49.5, -66.5]]

/-- Auto-downscale cell budget `max_elems` (main.py line 221). -/
def MAX_ELEMS : Nat := 12000000

/-! ## Filename pattern (main.py lines 24-26)

The regex is
`MRMS_ReflectivityAtLowestAltitude_(01\.00|00\.50)_(\d{8}-\d{6})\.grib2\.gz$`,
used with `re.search`, i.e. the match must end at the end of the string.
Every alternative has the same length, so the whole match is exactly the
last 64 characters of the string; the embedding checks that suffix shape
character by character. -/

/-- Decimal digit test for the `\d` character class. -/
def isDig (c : Char) : Bool := decide (48 ≤ c.toNat) && decide (c.toNat ≤ 57)

/-- The literal head of the pattern. -/
def patternHead : List Char := "MRMS_ReflectivityAtLowestAltitude_".data

/-- The `\d{8}-\d{6}` timestamp group. -/
def tsGroupOk (l : List Char) : Bool :=
  decide (l.length = 15) && (l.take 8).all isDig &&
    decide (l.getD 8 ' ' = '-') && (l.drop 9).all isDig

/-- The `(01\.00|00\.50)` resolution group. -/
def resGroupOk (l : List Char) : Bool :=
  decide (l = "01.00".data) || decide (l = "00.50".data)

/-- Shape of the final 64 characters demanded by the regex. -/
def suffix64Ok (l : List Char) : Bool :=
  decide (l.take 34 = patternHead) &&
  resGroupOk ((l.drop 34).take 5) &&
  decide (l.getD 39 ' ' = '_') &&
  tsGroupOk ((l.drop 40).take 15) &&
  decide (l.drop 55 = ".grib2.gz".data)

/-- PATTERN.search s succeeds (main.py lines 24-26). -/
def matchesPattern (s : String) : Bool :=
  let l := s.data
  decide (64 ≤ l.length) && suffix64Ok (l.drop (l.length - 64))

/-! ## Lexicographic string order (Python `list.sort()` on `str`)

Python compares strings lexicographically by Unicode code point; shorter
strings sort before their extensions. -/

/-- Python lexicographic order on character lists by code point. -/
def lexLe : List Char → List Char → Bool
  | [], _ => true
  | _ :: _, [] => false
  | a :: as, b :: bs =>
    if a.toNat < b.toNat then true
    else if b.toNat < a.toNat then false
    else lexLe as bs

/-- Python lexicographic order on strings. -/
def strLe (a b : String) : Bool := lexLe a.data b.data

/-- The sort order used by Python `list.sort()` on these strings, as a
decidable relation. -/
def strLeRel (a b : String) : Prop := strLe a b = true

instance : DecidableRel strLeRel := fun a b => instDecidableEqBool (strLe a b) true

/-- The idiom `l.sort(); l[-1]` of the source: last element of the
lexicographically sorted list (main.py lines 86-87 and 106-107).  Python
uses a stable comparison sort; it is embedded as a stable insertion sort,
which computes the same list for the total preorder `strLeRel`. -/
def sortLast (l : List String) : Option String :=
  (l.insertionSort strLeRel).getLast?

/-! ## SourceLocator (main.py lines 52-116) -/

/-- Python `str.split(sep)` for a one-character separator. -/
def splitChar (sep : Char) : List Char → List (List Char)
  | [] => [[]]
  | c :: rest =>
    let r := splitChar sep rest
    if c = sep then [] :: r
    else
      match r with
      | [] => [[c]]
      | h :: t => (c :: h) :: t

/-- The substring after the last slash, i.e. `os.path.basename`. -/
def basename (s : String) : String :=
  String.mk ((splitChar '/' s.data).getLastD s.data)

/-- One HTML anchor contributes its text if it matches, else its href if it
matches, else nothing (main.py lines 100-104). -/
def anchorName (a : String × String) : Option String :=
  if matchesPattern a.1 then some a.1
  else if matchesPattern a.2 then some a.2
  else none

/-- Names collected from the HTML directory page (main.py lines 99-104). -/
def htmlNames (anchors : List (String × String)) : List String :=
  anchors.filterMap anchorName

/-- The HTML branch of find_latest_filename (main.py lines 95-109).
`none` as input stands for a transport failure swallowed by the
`try/except`; a successful scrape passes the page anchors as
(text, href) pairs. -/
def htmlLatest (page : Option (List (String × String))) : Option String :=
  match page with
  | none => none
  | some anchors =>
    match sortLast (htmlNames anchors) with
    | none => none
    | some n => some (MRMS_HTTP ++ n)

/-- The _s3_list_latest pagination loop (main.py lines 52-89): page 0 is
always fetched; while it produced no candidates, and a continuation token
exists, up to 2 more pages are fetched.  Candidates of a page are its keys
whose basename matches the pattern; the first page with any candidate wins
and the lexicographically greatest key is returned as an absolute URL. -/
def s3ListLatest (pages : List (List String)) : Option String :=
  match ((pages.take 3).map
      (fun ks => ks.filter (fun k => matchesPattern (basename k)))).find?
      (fun c => !c.isEmpty) with
  | none => none
  | some cands =>
    match sortLast cands with
    | none => none
    | some k => some (MRMS_S3 ++ "/" ++ k)

/-- The candidate list the pagination loop of _s3_list_latest settles on:
the matches of the first page among the first three that has any matching
key (empty when every examined page is matchless). -/
def s3Candidates (pages : List (List String)) : List String :=
  (((pages.take 3).map
      (fun ks => ks.filter (fun k => matchesPattern (basename k)))).find?
      (fun c => !c.isEmpty)).getD []

/-- Error message of the final `raise RuntimeError` (main.py line 116). -/
def noRalaMsg : String :=
  "No RALA files found (tried: " ++ String.intercalate ", " s3Sources ++ ")"

/-- find_latest_filename (main.py lines 92-116): HTML first; else the S3
sources in order; else raise.  `s3pages` lists, per S3 source in order, the
listing pages that source would return. -/
def find_latest_filename (page : Option (List (String × String)))
    (s3pages : List (List (List String))) : Except String String :=
  match htmlLatest page with
  | some url => Except.ok url
  | none =>
    match s3pages.findSome? s3ListLatest with
    | some url => Except.ok url
    | none => Except.error noRalaMsg

/-- Timestamp extraction `os.path.basename(name).split("_")[3].split(".")[0]`
(main.py line 257). -/
def tsOf (name : String) : String :=
  String.mk ((splitChar '.' ((splitChar '_' (basename name).data).getD 3 [])).headD [])

/-! ## Fetcher (main.py lines 119-165)

A RawArtifact is abstracted by the two attributes the sanity check reads:
its byte size and whether its first four bytes are `GRIB`.  The filesystem
state relevant to the fetcher is the presence of the compressed `.gz` file
and of the decompressed `.grib2` file in the data directory. -/

/-- The decompressed artifact as seen by the validity check. -/
structure Artifact where
  size : Nat
  grib2Magic : Bool
deriving DecidableEq

/-- The sanity check of main.py line 158: the artifact must exist, be at
least 1024 bytes, and start with the GRIB magic (lines 119-124). -/
def sanityOk : Option Artifact → Bool
  | none => false
  | some a => decide (1024 ≤ a.size) && a.grib2Magic

/-- Result of download_gz: how many times _fetch ran, whether the
compressed file is present at return, and the decompressed file returned
via grib_path. -/
structure FetchOutcome where
  fetchCalls : Nat
  gzPresent : Bool
  gribFile : Option Artifact
deriving DecidableEq

/-- download_gz (main.py lines 127-165).  `gz0` is whether a compressed
file is initially present, `existing` the initially present decompressed
file if any, and `fetch k` the artifact the (k+1)-th run of `_fetch` leaves
on disk.  `_fetch` streams the gz, decompresses it, then removes the gz
(lines 138-152), so each `_fetch` ends with the gz absent.  If the grib
already exists, network I/O is skipped (line 154).  If the sanity check
fails, both files are removed and `_fetch` runs once more (lines 158-163);
the function then returns grib_path with no further validation (line 165). -/
def download_gz (gz0 : Bool) (existing : Option Artifact)
    (fetch : Nat → Artifact) : FetchOutcome :=
  let first : Nat × Bool × Option Artifact :=
    match existing with
    | none => (1, false, some (fetch 0))
    | some a => (0, gz0, some a)
  match first with
  | (n, gz1, file1) =>
    if sanityOk file1 then ⟨n, gz1, file1⟩
    else ⟨n + 1, false, some (fetch n)⟩

/-! ## DecimatorColorizer: decimation (main.py lines 205-224)

numpy `a[::s]` on an axis of length `n` keeps indices `0, s, 2s, …`, hence
has length `⌈n/s⌉ = (n + s - 1) / s` in natural division. -/

/-- Length of `a[::s]` for an axis of length n (numpy strided slice). -/
def ceilSlice (n s : Nat) : Nat := (n + s - 1) / s

/-- One pass of the auto-downscale loop body `arr = arr[::2, ::2]`
(main.py line 223). -/
def halveStep (d : Nat × Nat) : Nat × Nat := (ceilSlice d.1 2, ceilSlice d.2 2)

/-- The `while arr.size > max_elems` loop (main.py lines 222-224), written
with explicit fuel; fuel `H + W` is always sufficient (proved below). -/
def halveWhile : Nat → Nat → Nat × Nat → Nat × Nat
  | 0, _, d => d
  | fuel + 1, budget, d =>
    if budget < d.1 * d.2 then halveWhile fuel budget (halveStep d) else d

/-- Number of halving passes the loop of main.py lines 222-224 performs,
with the same fuel convention as `halveWhile`; used to state that the
final dimensions arise from the strided dimensions by iterated halving. -/
def halveCount : Nat → Nat → Nat × Nat → Nat
  | 0, _, _ => 0
  | fuel + 1, budget, d =>
    if budget < d.1 * d.2 then halveCount fuel budget (halveStep d) + 1 else 0

/-- The initial strided subsample `arr = arr[::s, ::s]` applied only when
`s > 1`, with `s = max(1, stride)` (main.py lines 206-208). -/
def strideDims (H W stride : Nat) : Nat × Nat :=
  let s := max 1 stride
  if 1 < s then (ceilSlice H s, ceilSlice W s) else (H, W)

/-- Dimensions of the array reaching the palette-mapping stage: strided
subsample then repeated halving until the cell count is within budget
(main.py lines 205-224, with the budget generalized from the constant
`max_elems`). -/
def reduceDims (H W stride budget : Nat) : Nat × Nat :=
  halveWhile (H + W) budget (strideDims H W stride)

/-! ## DecimatorColorizer: per-cell color mapping (main.py lines 227-231)

Per cell the source computes
`mask = ~isfinite(arr) | (arr < -5.0)`,
`norm = clip((arr - vmin) / (vmax - vmin), 0.0, 1.0)`,
`idx = (norm * 254 + 1).astype(uint8)`, `idx[mask] = 0`.
float32 values are embedded as exact rationals with a separate constructor
for the non-finite values (NaN, ±inf). -/

/-- A float32 cell of the decoded raster. -/
inductive Cell
  | val (v : ℚ)
  | notFinite
deriving DecidableEq

/-- Lower end of the color domain, `vmin` (main.py line 228). -/
def vmin : ℚ := 0.0

/-- Upper end of the color domain, `vmax` (main.py line 228). -/
def vmax : ℚ := 75.0

/-- np.clip(x, 0.0, 1.0). -/
def clip01 (x : ℚ) : ℚ := min (max x 0) 1

/-- Truncation toward zero, the C float-to-integer conversion used by
numpy `astype`. -/
def truncToZero (x : ℚ) : ℤ := if 0 ≤ x then ⌊x⌋ else -⌊-x⌋

/-- numpy `astype("uint8")` on a float value: truncate toward zero and
reduce mod 256. -/
def uint8Cast (x : ℚ) : ℕ := ((truncToZero x) % 256).toNat

/-- The validity mask of main.py line 227. -/
def cellMasked : Cell → Bool
  | Cell.notFinite => true
  | Cell.val v => decide (v < -5.0)

/-- Palette index assigned to one cell (main.py lines 227-231). -/
def colorize (c : Cell) : ℕ :=
  if cellMasked c then 0
  else
    match c with
    | Cell.notFinite => 0
    | Cell.val v => uint8Cast (clip01 ((v - vmin) / (vmax - vmin)) * 254 + 1)

/-! ## Publisher (main.py lines 245-251, 259-261)

write_meta dumps `{"timestamp": ts, "bounds": CONUS_BOUNDS}` to the fixed
metadata path; the image is saved to the fixed latest.png path just before
it.  Both are plain in-place writes. -/

/-- The metadata record written by write_meta (main.py lines 249-251). -/
structure Meta where
  timestamp : String
  bounds : List (List ℚ)
deriving DecidableEq

/-- write_meta (main.py lines 249-251). -/
def write_meta (ts : String) : Meta := ⟨ts, CONUS_BOUNDS⟩

/-- The published pair: content of latest.png (abstracted by the timestamp
of the cycle that wrote it) and content of latest.json. -/
structure PublishedPair where
  imagePng : String
  metaJson : Meta
deriving DecidableEq

/-! ## Publisher atomicity model (for the torn-pair analysis)

During cycle `n`, `grib_to_png` overwrites latest.png in place
(main.py line 260) and then `write_meta` overwrites latest.json in place
(main.py line 261).  There is no temp-file-and-rename and readers
(the static file route and /api/latest-meta, served on other threads or
as separate HTTP requests) are not excluded by the refresh lock, so each
of the two writes is a separately observable event.  The state records
which cycle's data each published file currently holds. -/

/-- Which refresh cycle produced each currently published file. -/
structure Published where
  imageCycle : Nat
  metaCycle : Nat
deriving DecidableEq

/-- Effect of `grib_to_png(grib, out_png)` on the published state
(main.py line 260): the image file now holds cycle n's data. -/
def writeImageStep (n : Nat) (s : Published) : Published := ⟨n, s.metaCycle⟩

/-- Effect of `write_meta(ts)` on the published state (main.py line 261):
the metadata file now holds cycle n's data. -/
def writeMetaStep (n : Nat) (s : Published) : Published := ⟨s.imageCycle, n⟩

/-- The states a concurrent reader can observe while cycle n publishes,
starting from state s0: before either write, between the two writes, and
after both. -/
def publishStates (s0 : Published) (n : Nat) : List Published :=
  [s0, writeImageStep n s0, writeMetaStep n (writeImageStep n s0)]

/-- A torn pair: image and metadata from different cycles. -/
def tornPair (s : Published) : Bool := decide (s.imageCycle ≠ s.metaCycle)

/-! ## RefreshCoordinator (main.py lines 48, 254-272)

refresh_once_async takes the process-wide `_refresh_lock`, then runs
locate → fetch → convert → publish with no await point inside the critical
section.  An `asyncio.Lock` is a mutex with FIFO wakeup: it serializes the
callers, it does not share one execution among them.  `runQueuedCalls`
executes a queue of callers one after the other; `srcTs exec` is the
timestamp the locator finds during the (exec+1)-th pipeline execution. -/

/-- Serialized execution of queued refresh_once callers: each caller in
turn acquires the lock, runs the full pipeline (one more execution), and
returns the timestamp its own execution found.  Returns the total number
of pipeline executions and each caller's observed timestamp. -/
def runQueuedCalls (srcTs : Nat → String) :
    List Nat → Nat → List (Nat × String) → Nat × List (Nat × String)
  | [], execs, results => (execs, results)
  | c :: rest, execs, results =>
      runQueuedCalls srcTs rest (execs + 1) (results ++ [(c, srcTs execs)])

/-- N callers concurrently invoking refresh_once: all N queue on the lock
and are served FIFO. -/
def refreshCallers (srcTs : Nat → String) (n : Nat) : Nat × List (Nat × String) :=
  runQueuedCalls srcTs (List.range n) 0 []

/-- One run of refresh_once_async (main.py lines 254-262) with its
external effects made explicit: `pub` is the currently published pair,
`gz0`/`existing` the raw-artifact directory content for the located name,
`fetch` the download oracle, `page`/`s3pages` the listing sources.
On a locate failure the exception propagates before any write, so the
published pair and the raw directory are untouched.  On success the
pipeline downloads, converts, and publishes, returning the new state of
the published pair, the raw-artifact directory, and the result. -/
def refresh_once (pub : Option PublishedPair) (gz0 : Bool)
    (existing : Option Artifact) (fetch : Nat → Artifact)
    (page : Option (List (String × String)))
    (s3pages : List (List (List String))) :
    Option PublishedPair × FetchOutcome × Except String String :=
  match find_latest_filename page s3pages with
  | Except.error e => (pub, ⟨0, gz0, existing⟩, Except.error e)
  | Except.ok name =>
    let fr := download_gz gz0 existing fetch
    let ts := tsOf name
    (some ⟨ts, write_meta ts⟩, fr, Except.ok ts)

/-! ## /api/latest-meta (main.py lines 289-301) -/

/-- A response body of /api/latest-meta. -/
inductive MetaResponse
  | payload (m : Meta)
  | errPayload (msg : String) (bounds : List (List ℚ))
deriving DecidableEq

/-- latest_meta (main.py lines 289-301): if the metadata file exists its
content is returned; on cold start one refresh is attempted and either
`{"timestamp": ts, "bounds": CONUS_BOUNDS}` or
`{"error": …, "bounds": CONUS_BOUNDS}` is returned. -/
def latest_meta (stored : Option Meta) (coldRefresh : Except String String) :
    MetaResponse :=
  match stored with
  | some m => MetaResponse.payload m
  | none =>
    match coldRefresh with
    | Except.ok ts => MetaResponse.payload ⟨ts, CONUS_BOUNDS⟩
    | Except.error e =>
        MetaResponse.errPayload ("refresh failed: " ++ e) CONUS_BOUNDS

/-- The bounds field of a /api/latest-meta response. -/
def boundsOf : MetaResponse → List (List ℚ)
  | MetaResponse.payload m => m.bounds
  | MetaResponse.errPayload _ b => b

/-! ## Concrete filenames used in the ordering analysis -/

/-- A 00.50-resolution file with timestamp 20251006-053000. -/
def rala0050Tie : String :=
  "MRMS_ReflectivityAtLowestAltitude_00.50_20251006-053000.grib2.gz"

/-- A 01.00-resolution file with the same timestamp 20251006-053000. -/
def rala0100Tie : String :=
  "MRMS_ReflectivityAtLowestAltitude_01.00_20251006-053000.grib2.gz"

/-- A 00.50-resolution file with the strictly later timestamp
20251006-060000. -/
def rala0050Newer : String :=
  "MRMS_ReflectivityAtLowestAltitude_00.50_20251006-060000.grib2.gz"

/-- A 01.00-resolution file with the strictly later timestamp
20251006-060000. -/
def rala0100Newer : String :=
  "MRMS_ReflectivityAtLowestAltitude_01.00_20251006-060000.grib2.gz"

/-- The tie-timestamp 00.50 file as a key under the first S3 source. -/
def key0050Tie : String :=
  "CONUS/ReflectivityAtLowestAltitude_00.50/" ++ rala0050Tie

/-- The later-timestamp 00.50 file as a key under the first S3 source. -/
def key0050Newer : String :=
  "CONUS/ReflectivityAtLowestAltitude_00.50/" ++ rala0050Newer

/-- The later-timestamp 01.00 file as a key under the second S3 source. -/
def key0100Newer : String :=
  "CONUS/ReflectivityAtLowestAltitude_01.00/" ++ rala0100Newer

/-! ## Helper lemmas: the lexicographic order is a total preorder -/

theorem lexLe_refl : ∀ l : List Char, lexLe l l = true
  | [] => rfl
  | c :: cs => by
    unfold lexLe
    rw [if_neg (lt_irrefl _), if_neg (lt_irrefl _)]
    exact lexLe_refl cs

theorem lexLe_total : ∀ a b : List Char, lexLe a b = true ∨ lexLe b a = true
  | [], _ => Or.inl rfl
  | _ :: _, [] => Or.inr rfl
  | a :: as, b :: bs => by
    unfold lexLe
    rcases Nat.lt_trichotomy a.toNat b.toNat with h | h | h
    · left; simp [h]
    · rw [if_neg (by omega), if_neg (by omega), if_neg (by omega), if_neg (by omega)]
      exact lexLe_total as bs
    · right; simp [h]

theorem lexLe_trans : ∀ a b c : List Char,
    lexLe a b = true → lexLe b c = true → lexLe a c = true
  | [], _, _, _, _ => rfl
  | _ :: _, [], _, h1, _ => by simp [lexLe] at h1
  | _ :: _, _ :: _, [], _, h2 => by simp [lexLe] at h2
  | a :: as, b :: bs, c :: cs, h1, h2 => by
    unfold lexLe at h1 h2 ⊢
    split_ifs at h1 h2 ⊢ <;>
      first
        | rfl
        | (exact lexLe_trans as bs cs h1 h2)
        | (exfalso; omega)

theorem strLe_refl (a : String) : strLe a a = true := lexLe_refl a.data

theorem strLe_total (a b : String) : strLe a b = true ∨ strLe b a = true :=
  lexLe_total a.data b.data

theorem strLe_trans {a b c : String} (h1 : strLe a b = true)
    (h2 : strLe b c = true) : strLe a c = true :=
  lexLe_trans a.data b.data c.data h1 h2

theorem pairwise_getLast_rel : ∀ (xs : List String) (m : String),
    xs.Pairwise strLeRel → xs.getLast? = some m → ∀ x ∈ xs, strLe x m = true := by
  intro xs
  induction xs with
  | nil => intro m _ h; simp at h
  | cons a t ih =>
    intro m hp hl x hx
    cases t with
    | nil =>
      simp at hl hx
      subst hl; subst hx
      exact strLe_refl x
    | cons b t2 =>
      rw [List.getLast?_cons_cons] at hl
      rw [List.pairwise_cons] at hp
      rcases List.mem_cons.mp hx with rfl | hx2
      · exact hp.1 m (List.mem_of_getLast?_eq_some hl)
      · exact ih m hp.2 hl x hx2

/-- The element `l.sort(); l[-1]` picks is a maximum of `l` for the
lexicographic order, and belongs to `l`. -/
theorem sortLast_spec (l : List String) (m : String) (h : sortLast l = some m) :
    m ∈ l ∧ ∀ x ∈ l, strLe x m = true := by
  haveI : IsTotal String strLeRel := ⟨fun a b => strLe_total a b⟩
  haveI : IsTrans String strLeRel := ⟨fun _ _ _ hab hbc => strLe_trans hab hbc⟩
  unfold sortLast at h
  have hsorted : (l.insertionSort strLeRel).Pairwise strLeRel :=
    List.sorted_insertionSort strLeRel l
  have hmem : m ∈ l.insertionSort strLeRel := List.mem_of_getLast?_eq_some h
  refine ⟨(List.mem_insertionSort strLeRel).mp hmem, fun x hx => ?_⟩
  exact pairwise_getLast_rel _ m hsorted h x
    ((List.mem_insertionSort strLeRel).mpr hx)

/-- When the settled candidate list has a last sorted element, the
pagination loop returns it as an absolute URL. -/
theorem s3ListLatest_of_sortLast (pages : List (List String)) (k : String)
    (h : sortLast (s3Candidates pages) = some k) :
    s3ListLatest pages = some (MRMS_S3 ++ "/" ++ k) := by
  unfold s3Candidates at h
  unfold s3ListLatest
  cases hf : ((pages.take 3).map
      (fun ks => ks.filter (fun k => matchesPattern (basename k)))).find?
      (fun c => !c.isEmpty) with
  | none =>
    rw [hf] at h
    simp [sortLast, List.insertionSort] at h
  | some cands =>
    rw [hf] at h
    simp only [Option.getD_some] at h
    simp [h]

/-- Sources that yield no candidate are skipped by the fallback loop. -/
theorem findSome?_skip_none {α β : Type} (f : α → Option β) :
    ∀ (ps rest : List α), (∀ p ∈ ps, f p = none) →
      (ps ++ rest).findSome? f = rest.findSome? f := by
  intro ps
  induction ps with
  | nil => intro rest _; rfl
  | cons a t ih =>
    intro rest hp
    have ha : f a = none := hp a (List.mem_cons_self a t)
    rw [List.cons_append, List.findSome?_cons_of_isNone _ (by simp [ha])]
    exact ih rest (fun p hmem => hp p (List.mem_cons_of_mem a hmem))

/-! ## Helper lemmas: decimation loop -/

theorem ceilSlice_le (n s : Nat) (hs : 1 ≤ s) : ceilSlice n s ≤ n := by
  have hns : n ≤ n * s := by nlinarith
  have h2 : (n + 1) * s = n * s + s := by ring
  have hlt : n + s - 1 < (n + 1) * s := by omega
  have := (Nat.div_lt_iff_lt_mul (by omega : 0 < s)).mpr hlt
  unfold ceilSlice
  omega

theorem halveStep_decrease (d : Nat × Nat) (h : 2 ≤ d.1 * d.2) :
    (halveStep d).1 + (halveStep d).2 < d.1 + d.2 := by
  have h1 : d.1 ≠ 0 := fun e => by simp [e] at h
  have h2 : d.2 ≠ 0 := fun e => by simp [e] at h
  have h3 : ¬(d.1 = 1 ∧ d.2 = 1) := fun ⟨e1, e2⟩ => by simp [e1, e2] at h
  simp only [halveStep, ceilSlice]
  omega

theorem halveWhile_size_le : ∀ (fuel budget : Nat) (d : Nat × Nat),
    1 ≤ budget → d.1 + d.2 ≤ fuel →
    (halveWhile fuel budget d).1 * (halveWhile fuel budget d).2 ≤ budget := by
  intro fuel
  induction fuel with
  | zero =>
    intro budget d hb hf
    have h1 : d.1 = 0 := by omega
    simp [halveWhile, h1]
  | succ f ih =>
    intro budget d hb hf
    by_cases hc : budget < d.1 * d.2
    · have hdec := halveStep_decrease d (by omega)
      simp only [halveWhile, if_pos hc]
      exact ih budget (halveStep d) hb (by omega)
    · simp only [halveWhile, if_neg hc]
      omega

theorem halveWhile_eq_iterate : ∀ (fuel budget : Nat) (d : Nat × Nat),
    halveWhile fuel budget d = halveStep^[halveCount fuel budget d] d := by
  intro fuel
  induction fuel with
  | zero => intro budget d; rfl
  | succ f ih =>
    intro budget d
    by_cases hc : budget < d.1 * d.2
    · simp only [halveWhile, halveCount, if_pos hc, ih budget (halveStep d),
        Function.iterate_succ_apply]
    · simp only [halveWhile, halveCount, if_neg hc, Function.iterate_zero_apply]

theorem strideDims_eq (H W s : Nat) :
    strideDims H W s = (ceilSlice H (max 1 s), ceilSlice W (max 1 s)) := by
  unfold strideDims
  by_cases h : 1 < max 1 s
  · simp [h]
  · have h1 : max 1 s = 1 := by omega
    simp [h, h1, ceilSlice]

/-! ## Helper lemmas: serialized refresh callers -/

theorem runQueuedCalls_execs (f : Nat → String) :
    ∀ (pend : List Nat) (e : Nat) (r : List (Nat × String)),
      (runQueuedCalls f pend e r).1 = e + pend.length := by
  intro pend
  induction pend with
  | nil => intro e r; simp [runQueuedCalls]
  | cons c rest ih =>
    intro e r
    simp only [runQueuedCalls, ih, List.length_cons]
    omega

theorem runQueuedCalls_results_const (f : Nat → String) (t : String)
    (hf : ∀ i, f i = t) :
    ∀ (pend : List Nat) (e : Nat) (r : List (Nat × String)),
      (∀ p ∈ r, p.2 = t) →
      ∀ p ∈ (runQueuedCalls f pend e r).2, p.2 = t := by
  intro pend
  induction pend with
  | nil => intro e r hr; simpa [runQueuedCalls] using hr
  | cons c rest ih =>
    intro e r hr
    simp only [runQueuedCalls]
    apply ih
    intro p hp
    rcases List.mem_append.mp hp with h | h
    · exact hr p h
    · rw [List.mem_singleton.mp h]
      exact hf e

/-! ## Helper lemmas: fetcher -/

theorem download_gz_gribFile_isSome (gz0 : Bool) (existing : Option Artifact)
    (fetch : Nat → Artifact) :
    (download_gz gz0 existing fetch).gribFile.isSome = true := by
  cases existing <;> simp only [download_gz] <;> split <;> rfl

/-! ## Helper lemmas: colorizer -/

theorem clip01_nonneg (a : ℚ) : 0 ≤ clip01 a := by
  unfold clip01
  exact le_min (le_max_right a 0) zero_le_one

theorem clip01_le_one (a : ℚ) : clip01 a ≤ 1 := by
  unfold clip01
  exact min_le_right _ _

/-- Evaluation of the uint8 cast on the quantization expression for a
normalized value in the unit interval. -/
theorem uint8Cast_unit (x : ℚ) (h0 : 0 ≤ x) (h1 : x ≤ 1) :
    uint8Cast (x * 254 + 1) = (⌊x * 254⌋).toNat + 1 ∧
    1 ≤ uint8Cast (x * 254 + 1) ∧ uint8Cast (x * 254 + 1) ≤ 255 := by
  have ht0 : (0 : ℚ) ≤ x * 254 := by positivity
  have hup : x * 254 ≤ 254 := by nlinarith
  have hf0 : (0 : ℤ) ≤ ⌊x * 254⌋ := Int.floor_nonneg.mpr ht0
  have hf1 : ⌊x * 254⌋ ≤ 254 := by
    have h := Int.floor_le_floor hup
    simpa using h
  have hfloor : ⌊x * 254 + 1⌋ = ⌊x * 254⌋ + 1 := Int.floor_add_one _
  have htz : truncToZero (x * 254 + 1) = ⌊x * 254⌋ + 1 := by
    unfold truncToZero
    rw [if_pos (by linarith : (0 : ℚ) ≤ x * 254 + 1), hfloor]
  unfold uint8Cast
  rw [htz, Int.emod_eq_of_lt (by omega) (by omega)]
  omega

/-! ## Claim theorems -/

/-- C1: the claim states that publishing is atomic over the (image,
metadata) pair, so a concurrent reader never observes the image of cycle N
with the metadata of cycle N−1.  The code publishes by two independent
in-place writes (grib_to_png to latest.png at main.py line 260, then
write_meta to latest.json at line 261), with no temp-file-and-rename and
no reader-side lock.  Starting from the consistent publish of cycle 1, the
state after cycle 2's image write and before its metadata write is
observable, and it pairs the cycle-2 image with the cycle-1 metadata:
exactly the torn observation the claim rules out. -/
theorem claim_C1_torn_pair_observable :
    Published.mk 2 1 ∈ publishStates ⟨1, 1⟩ 2 ∧ tornPair ⟨2, 1⟩ = true := by
  decide

/-- C2, counterexample: two concurrent refresh_once callers, with the
source advancing between their turns, perform two pipeline executions
(not one) and observe different timestamps.  The claim states exactly one
pipeline execution with all callers observing the same timestamp. -/
theorem claim_C2_counterexample :
    (refreshCallers (fun i => if i = 0 then "A" else "B") 2).1 = 2 ∧
    (refreshCallers (fun i => if i = 0 then "A" else "B") 2).2 =
      [(0, "A"), (1, "B")] ∧
    ("A" : String) ≠ "B" := by
  refine ⟨rfl, rfl, by decide⟩

/-- C2, amended: the asyncio.Lock of main.py line 48 serializes
refresh_once callers; it is not a single-flight share.  N concurrent
callers perform exactly N pipeline executions, one per caller, never
overlapping; each caller observes the timestamp its own execution found,
so all callers observe the same timestamp only when the source does not
advance between the executions. -/
theorem claim_C2_amended (n : Nat) (f : Nat → String) (t : String)
    (hf : ∀ i, f i = t) :
    (refreshCallers f n).1 = n ∧
    ((refreshCallers f n).2.all fun p => p.2 == t) = true := by
  constructor
  · simpa [refreshCallers] using runQueuedCalls_execs f (List.range n) 0 []
  · rw [List.all_eq_true]
    intro p hp
    have h := runQueuedCalls_results_const f t hf (List.range n) 0 []
      (by simp) p hp
    simpa using h

/-- C2, witness: three callers against a source that does not advance. -/
theorem claim_C2_witness :
    (refreshCallers (fun _ => "20251006-053000") 3).1 = 3 ∧
    ((refreshCallers (fun _ => "20251006-053000") 3).2.all
      fun p => p.2 == "20251006-053000") = true :=
  claim_C2_amended 3 (fun _ => "20251006-053000") "20251006-053000"
    (fun _ => rfl)

/-- C3, counterexample: with no cached file and a download that is invalid
both times (10 bytes, no GRIB magic), download_gz fetches twice and then
returns the still-invalid artifact as its result.  The claim states that a
second validation failure raises CorruptArtifactError instead of returning
the invalid artifact; no such error exists in the code (main.py line 165
returns grib_path unconditionally after the single retry). -/
theorem claim_C3_counterexample :
    download_gz false none (fun _ => ⟨10, false⟩) =
      ⟨2, false, some ⟨10, false⟩⟩ ∧
    sanityOk (some ⟨10, false⟩) = false := by
  decide

/-- C3, amended: on validation failure both files are deleted and the full
fetch is retried exactly once; the artifact obtained by the retry is then
returned with no further validation (so a still-invalid retry result is
returned rather than raising).  Fresh-download case: a failed first fetch
is followed by exactly one refetch whose artifact is returned; cached
case: an invalid cached artifact triggers exactly one fetch whose
artifact is returned. -/
theorem claim_C3_amended (gz0 : Bool) (fetch : Nat → Artifact) (a : Artifact)
    (hbad0 : sanityOk (some (fetch 0)) = false)
    (hbadA : sanityOk (some a) = false) :
    download_gz gz0 none fetch = ⟨2, false, some (fetch 1)⟩ ∧
    download_gz gz0 (some a) fetch = ⟨1, false, some (fetch 0)⟩ := by
  constructor <;> simp [download_gz, hbad0, hbadA]

/-- C3, witness: both cases of the amended claim at a concrete invalid
download (12 bytes, wrong magic) and a concrete invalid cached artifact
(large enough but wrong magic). -/
theorem claim_C3_witness :
    download_gz true none (fun _ => ⟨12, false⟩) =
      FetchOutcome.mk 2 false (some ⟨12, false⟩) ∧
    download_gz true (some ⟨2000, false⟩) (fun _ => ⟨12, false⟩) =
      FetchOutcome.mk 1 false (some ⟨12, false⟩) :=
  claim_C3_amended true (fun _ => ⟨12, false⟩) ⟨2000, false⟩
    (by decide) (by decide)

/-- C4, counterexample: the finite value 100 exceeds 75; the claim maps it
to index 0, but the code clamps the normalization at 1 (main.py line 229)
and assigns index 255 — only non-finite cells and cells below −5 are
masked (line 227). -/
theorem claim_C4_counterexample :
    colorize (Cell.val 100) = 255 ∧ colorize (Cell.val 100) ≠ 0 := by
  have h : colorize (Cell.val 100) = 255 := by
    norm_num [colorize, cellMasked, uint8Cast, truncToZero, clip01, vmin,
      vmax]
    decide
  exact ⟨h, by omega⟩

/-- C4, amended: value 0 maps to index 1, value 75 to index 255, values
below −5 and non-finite values to index 0, and values above 75 map to
index 255 (clamped), not to index 0. -/
theorem claim_C4_amended :
    colorize (Cell.val 0) = 1 ∧ colorize (Cell.val 75) = 255 ∧
    colorize Cell.notFinite = 0 ∧
    (∀ v : ℚ, v < -5 → colorize (Cell.val v) = 0) ∧
    (∀ v : ℚ, 75 < v → colorize (Cell.val v) = 255) := by
  refine ⟨?_, ?_, rfl, ?_, ?_⟩
  · norm_num [colorize, cellMasked, uint8Cast, truncToZero, clip01, vmin,
      vmax]
  · norm_num [colorize, cellMasked, uint8Cast, truncToZero, clip01, vmin,
      vmax]
    decide
  · intro v hv
    have hm : cellMasked (Cell.val v) = true := by
      simp only [cellMasked, decide_eq_true_eq]
      have h5 : (-5.0 : ℚ) = -5 := by norm_num
      rw [h5]; exact hv
    simp [colorize, hm]
  · intro v hv
    have hm : cellMasked (Cell.val v) = false := by
      simp only [cellMasked, decide_eq_false_iff_not]
      have h5 : (-5.0 : ℚ) = -5 := by norm_num
      rw [h5]; linarith
    have hq : (v - vmin) / (vmax - vmin) = v / 75 := by
      rw [vmin, vmax]; norm_num
    have hx : (1 : ℚ) ≤ v / 75 := by
      rw [le_div_iff₀ (by norm_num : (0 : ℚ) < 75)]; linarith
    have hclip : clip01 ((v - vmin) / (vmax - vmin)) = 1 := by
      rw [hq]
      unfold clip01
      rw [max_eq_left (by linarith : (0 : ℚ) ≤ v / 75),
        min_eq_right hx]
    simp only [colorize, hm, Bool.false_eq_true, if_false, hclip]
    norm_num [uint8Cast, truncToZero]
    decide

/-- C4, witness: the quantified parts of the amended claim at −6 and 76. -/
theorem claim_C4_witness :
    colorize (Cell.val (-6)) = 0 ∧ colorize (Cell.val 76) = 255 :=
  ⟨claim_C4_amended.2.2.2.1 (-6) (by norm_num),
   claim_C4_amended.2.2.2.2 76 (by norm_num)⟩

/-- C5, counterexample: the source sorts the full filenames
lexicographically (main.py lines 106-107), and in the name the resolution
field precedes the timestamp field, so the resolution dominates the
comparison.  Between a 00.50 candidate with timestamp 20251006-060000 and
a 01.00 candidate with the strictly smaller timestamp 20251006-053000,
find_latest_filename returns the 01.00 candidate — the claim states that
a strictly greater timestamp is always preferred. -/
theorem claim_C5_counterexample :
    find_latest_filename (some [(rala0050Newer, ""), (rala0100Tie, "")]) [] =
      Except.ok (MRMS_HTTP ++ rala0100Tie) ∧
    tsOf rala0100Tie = "20251006-053000" ∧
    tsOf rala0050Newer = "20251006-060000" ∧
    strLe (tsOf rala0100Tie) (tsOf rala0050Newer) = true ∧
    tsOf rala0100Tie ≠ tsOf rala0050Newer := by
  refine ⟨rfl, rfl, rfl, rfl, by decide⟩

/-- C5, amended: find_latest returns, among all candidates matching the
naming pattern from the first source that yields any match (the HTML
directory first, then the S3 sources in their configured order 00.50 then
01.00), the lexicographically greatest full filename of that source's
candidate list — an ordering by (resolution, timestamp), not by
(timestamp, resolution_rank).  Hence within one candidate list two
candidates with identical timestamp and resolutions 01.00 and 00.50
resolve to the 01.00 one, but a candidate with a strictly greater
timestamp is not always preferred: within one list the resolution field
dominates the comparison, and across the S3 fallbacks the 00.50 source is
tried first, so its best candidate wins even when the 01.00 source holds
a strictly newer file.  Part 1: the HTML branch; part 2: the S3 branch,
after any run of matchless sources; part 3: the HTML tie case; part 4:
the cross-source case, where the returned 00.50 candidate has a strictly
smaller timestamp than the 01.00 candidate of the later source. -/
theorem claim_C5_amended :
    (∀ (anchors : List (String × String))
        (s3pages : List (List (List String))) (m : String),
        sortLast (htmlNames anchors) = some m →
        find_latest_filename (some anchors) s3pages =
          Except.ok (MRMS_HTTP ++ m) ∧
        m ∈ htmlNames anchors ∧
        ((htmlNames anchors).all fun x => strLe x m) = true) ∧
    (∀ (page : Option (List (String × String)))
        (ps qs : List (List (List String))) (pages : List (List String))
        (k : String),
        htmlLatest page = none →
        (∀ p ∈ ps, s3ListLatest p = none) →
        sortLast (s3Candidates pages) = some k →
        find_latest_filename page (ps ++ pages :: qs) =
          Except.ok (MRMS_S3 ++ "/" ++ k) ∧
        k ∈ s3Candidates pages ∧
        ((s3Candidates pages).all fun x => strLe x k) = true) ∧
    (find_latest_filename (some [(rala0050Tie, ""), (rala0100Tie, "")]) [] =
      Except.ok (MRMS_HTTP ++ rala0100Tie)) ∧
    (find_latest_filename none [[[key0050Tie]], [[key0100Newer]]] =
      Except.ok (MRMS_S3 ++ "/" ++ key0050Tie) ∧
     strLe (tsOf key0050Tie) (tsOf key0100Newer) = true ∧
     tsOf key0050Tie ≠ tsOf key0100Newer) := by
  refine ⟨?_, ?_, rfl, rfl, rfl, by decide⟩
  · intro anchors s3pages m hm
    obtain ⟨hmem, hmax⟩ := sortLast_spec _ _ hm
    refine ⟨by simp [find_latest_filename, htmlLatest, hm], hmem, ?_⟩
    rw [List.all_eq_true]
    exact fun x hx => hmax x hx
  · intro page ps qs pages k hH hps hk
    have hurl := s3ListLatest_of_sortLast pages k hk
    obtain ⟨hmem, hmax⟩ := sortLast_spec _ _ hk
    refine ⟨?_, hmem, ?_⟩
    · have hfs : List.findSome? s3ListLatest (pages :: qs) =
          some (MRMS_S3 ++ "/" ++ k) := by
        rw [List.findSome?_cons_of_isSome qs (by rw [hurl]; rfl)]
        exact hurl
      simp only [find_latest_filename, hH,
        findSome?_skip_none s3ListLatest ps (pages :: qs) hps, hfs]
    · rw [List.all_eq_true]
      exact fun x hx => hmax x hx

/-- C5, witness: the HTML part of the amended claim at a page holding an
older and a newer 00.50 file, and the S3 part with one matchless source
followed by a source whose page holds the same two files as keys. -/
theorem claim_C5_witness :
    (find_latest_filename (some [(rala0050Tie, ""), (rala0050Newer, "")]) [] =
      Except.ok (MRMS_HTTP ++ rala0050Newer) ∧
    rala0050Newer ∈ htmlNames [(rala0050Tie, ""), (rala0050Newer, "")] ∧
    ((htmlNames [(rala0050Tie, ""), (rala0050Newer, "")]).all
      fun x => strLe x rala0050Newer) = true) ∧
    (find_latest_filename none [[[]], [[key0050Tie, key0050Newer]]] =
      Except.ok (MRMS_S3 ++ "/" ++ key0050Newer) ∧
    key0050Newer ∈ s3Candidates [[key0050Tie, key0050Newer]] ∧
    ((s3Candidates [[key0050Tie, key0050Newer]]).all
      fun x => strLe x key0050Newer) = true) :=
  ⟨claim_C5_amended.1 [(rala0050Tie, ""), (rala0050Newer, "")] []
      rala0050Newer rfl,
   claim_C5_amended.2.1 none [[[]]] [] [[key0050Tie, key0050Newer]]
      key0050Newer rfl (by decide) rfl⟩

/-- C6, counterexample: for a 5×5 raster with stride 2 (and the source's
12-million-cell budget, so no halving applies), the decimated dimensions
are 3×3 — numpy `a[::2]` keeps indices 0, 2, 4 — while the claim predicts
floor(5/2)×floor(5/2) = 2×2 possibly halved further (all halvings of 2×2
give 1×1, never 3×3). -/
theorem claim_C6_counterexample :
    reduceDims 5 5 2 12000000 = (3, 3) ∧ (5 / 2 : Nat) = 2 ∧
    ceilSlice 2 2 = 1 ∧ ceilSlice 1 2 = 1 := by
  decide

/-- C6, amended: the strided subsample yields ceil(H/stride)×ceil(W/stride)
(not floor), the final dimensions arise from those by some number of
ceiling-halving passes, the final cell count is at most the budget, and
the halving loop terminates (fuel H+W always suffices for any positive
budget). -/
theorem claim_C6_amended (H W stride budget : Nat) (hb : 1 ≤ budget) :
    strideDims H W stride =
      (ceilSlice H (max 1 stride), ceilSlice W (max 1 stride)) ∧
    reduceDims H W stride budget =
      halveStep^[halveCount (H + W) budget (strideDims H W stride)]
        (strideDims H W stride) ∧
    (reduceDims H W stride budget).1 * (reduceDims H W stride budget).2 ≤
      budget := by
  refine ⟨strideDims_eq H W stride, ?_, ?_⟩
  · exact halveWhile_eq_iterate (H + W) budget (strideDims H W stride)
  · have hsum : (strideDims H W stride).1 + (strideDims H W stride).2 ≤
        H + W := by
      rw [strideDims_eq]
      have hH := ceilSlice_le H (max 1 stride) (by omega)
      have hW := ceilSlice_le W (max 1 stride) (by omega)
      show ceilSlice H (max 1 stride) + ceilSlice W (max 1 stride) ≤ H + W
      omega
    exact halveWhile_size_le (H + W) budget _ hb hsum

/-- C6, witness: the amended claim at a 7000×3500 raster, stride 4, with
the source's budget of 12000000 cells. -/
theorem claim_C6_witness :
    strideDims 7000 3500 4 =
      (ceilSlice 7000 (max 1 4), ceilSlice 3500 (max 1 4)) ∧
    reduceDims 7000 3500 4 12000000 =
      halveStep^[halveCount (7000 + 3500) 12000000 (strideDims 7000 3500 4)]
        (strideDims 7000 3500 4) ∧
    (reduceDims 7000 3500 4 12000000).1 *
      (reduceDims 7000 3500 4 12000000).2 ≤ 12000000 :=
  claim_C6_amended 7000 3500 4 12000000 (by decide)

/-- C7, counterexample: for the valid cell value 15 the code computes
index 51 — `(norm * 254 + 1).astype("uint8")` truncates 51.8 to 51 —
while the claim's formula round(normalized * 254) + 1 gives
round(50.8) + 1 = 52. -/
theorem claim_C7_counterexample :
    colorize (Cell.val 15) = 51 ∧
    (round (clip01 ((15 - vmin) / (vmax - vmin)) * 254) + 1 : ℤ) = 52 := by
  constructor
  · norm_num [colorize, cellMasked, uint8Cast, truncToZero, clip01, vmin,
      vmax]
    decide
  · norm_num [clip01, vmin, vmax, round_eq]

/-- C7, amended: for every valid cell (finite and not below −5) the
quantized palette index equals floor(normalized * 254) + 1 — the uint8
cast truncates rather than rounds — where normalized is the value mapped
linearly from [0, 75] to [0, 1] and clamped at both ends; the index always
lies in [1, 255]. -/
theorem claim_C7_amended (v : ℚ) (hv : ¬v < -5) :
    colorize (Cell.val v) =
      (⌊clip01 ((v - vmin) / (vmax - vmin)) * 254⌋).toNat + 1 ∧
    1 ≤ colorize (Cell.val v) ∧ colorize (Cell.val v) ≤ 255 := by
  have hm : cellMasked (Cell.val v) = false := by
    simp only [cellMasked, decide_eq_false_iff_not]
    have h5 : (-5.0 : ℚ) = -5 := by norm_num
    rw [h5]; exact hv
  have hcol : colorize (Cell.val v) =
      uint8Cast (clip01 ((v - vmin) / (vmax - vmin)) * 254 + 1) := by
    simp [colorize, hm]
  rw [hcol]
  exact uint8Cast_unit _ (clip01_nonneg _) (clip01_le_one _)

/-- C7, witness: the amended claim at the valid cell value 37.5. -/
theorem claim_C7_witness :
    colorize (Cell.val 37.5) =
      (⌊clip01 ((37.5 - vmin) / (vmax - vmin)) * 254⌋).toNat + 1 ∧
    1 ≤ colorize (Cell.val 37.5) ∧ colorize (Cell.val 37.5) ≤ 255 :=
  claim_C7_amended 37.5 (by norm_num)

/-- C8: when the HTML source yields nothing (unreachable or zero matches)
and every S3 fallback source yields zero pattern matches,
find_latest_filename fails with the no-files error (the code's
RuntimeError, the spec's NotFoundError), and a refresh failing this way
returns before any write: the previously published pair and the raw
directory are unchanged. -/
theorem claim_C8_not_found (page : Option (List (String × String)))
    (s3pages : List (List (List String))) (pub : Option PublishedPair)
    (gz0 : Bool) (existing : Option Artifact) (fetch : Nat → Artifact)
    (hH : htmlLatest page = none)
    (hS : ∀ p ∈ s3pages, s3ListLatest p = none) :
    find_latest_filename page s3pages = Except.error noRalaMsg ∧
    refresh_once pub gz0 existing fetch page s3pages =
      (pub, ⟨0, gz0, existing⟩, Except.error noRalaMsg) := by
  have hfind : find_latest_filename page s3pages = Except.error noRalaMsg := by
    simp [find_latest_filename, hH, List.findSome?_eq_none_iff.mpr hS]
  exact ⟨hfind, by simp [refresh_once, hfind]⟩

/-- C8, witness: an unreachable HTML source and two S3 sources whose only
page lists no matching key. -/
theorem claim_C8_witness :
    find_latest_filename none
        [[["CONUS/ReflectivityAtLowestAltitude_00.50/readme.txt"]], [[]]] =
      Except.error noRalaMsg ∧
    refresh_once none false none (fun _ => ⟨0, false⟩) none
        [[["CONUS/ReflectivityAtLowestAltitude_00.50/readme.txt"]], [[]]] =
      (none, ⟨0, false, none⟩, Except.error noRalaMsg) :=
  claim_C8_not_found none
    [[["CONUS/ReflectivityAtLowestAltitude_00.50/readme.txt"]], [[]]]
    none false none (fun _ => ⟨0, false⟩) rfl (by decide)

/-- C9, counterexample: a fully successful refresh cycle (locate, fetch,
convert, publish all succeed) ends with the decompressed raw artifact
still present in the data directory: download_gz returns it (main.py
line 165) and neither refresh_once_async nor refresher_loop deletes
anything afterwards (main.py lines 254-272), so it persists across
cycles — the claim states the coordinator deletes it after the cycle. -/
theorem claim_C9_counterexample :
    (refresh_once none false none (fun _ => ⟨2048, true⟩)
        (some [(rala0050Tie, "")]) []).2.2 = Except.ok "20251006-053000" ∧
    (refresh_once none false none (fun _ => ⟨2048, true⟩)
        (some [(rala0050Tie, "")]) []).2.1.gribFile = some ⟨2048, true⟩ :=
  ⟨rfl, rfl⟩

/-- C9, amended: the compressed file does not persist — `_fetch` deletes
it right after decompressing, and on validation failure both files are
deleted before the refetch — but the decompressed artifact is returned by
download_gz and persists after a successful cycle (it serves as the
idempotent cache of the next cycle); the coordinator performs no cleanup. -/
theorem claim_C9_amended (pub : Option PublishedPair) (gz0 : Bool)
    (existing : Option Artifact) (fetch : Nat → Artifact)
    (page : Option (List (String × String)))
    (s3pages : List (List (List String))) (url : String) (a : Artifact)
    (hloc : htmlLatest page = some url) (hbad : sanityOk (some a) = false) :
    ((refresh_once pub gz0 existing fetch page s3pages).2.1.gribFile).isSome
      = true ∧
    (download_gz gz0 none fetch).gzPresent = false ∧
    (download_gz gz0 (some a) fetch).gzPresent = false := by
  refine ⟨?_, ?_, ?_⟩
  · simp only [refresh_once, find_latest_filename, hloc]
    exact download_gz_gribFile_isSome gz0 existing fetch
  · simp only [download_gz]
    split <;> rfl
  · simp [download_gz, hbad]

/-- C9, witness: the amended claim at a concrete successful cycle, with a
valid download and an invalid cached artifact for the failure clause. -/
theorem claim_C9_witness :
    ((refresh_once none false none (fun _ => ⟨2048, true⟩)
        (some [(rala0100Tie, "")]) []).2.1.gribFile).isSome = true ∧
    (download_gz false none (fun _ => ⟨2048, true⟩)).gzPresent = false ∧
    (download_gz false (some ⟨9, true⟩)
        (fun _ => ⟨2048, true⟩)).gzPresent = false :=
  claim_C9_amended none false none (fun _ => ⟨2048, true⟩)
    (some [(rala0100Tie, "")]) [] (MRMS_HTTP ++ rala0100Tie) ⟨9, true⟩
    rfl (by decide)

/-- C10: every metadata record the system writes or returns carries the
fixed bounds constant [[24.5, −125.0], [49.5, −66.5]]: the record
write_meta writes for any timestamp, the stored record latest-meta serves
(necessarily one written by write_meta, the only writer), the cold-start
success payload, and the cold-start error payload; no operation changes
the bounds field. -/
theorem claim_C10_bounds (storedTs : Option String)
    (coldRefresh : Except String String) (ts : String) :
    (write_meta ts).bounds = [[24.5, -125.0], [49.5, -66.5]] ∧
    boundsOf (latest_meta (storedTs.map write_meta) coldRefresh) =
      [[24.5, -125.0], [49.5, -66.5]] := by
  refine ⟨rfl, ?_⟩
  cases storedTs <;> cases coldRefresh <;> rfl

end MrmsRadar
